import Mathlib

/-
Verification of the HR partner advisory pipeline (src/hr_partner.py).

The program is a sequential three-stage prompt-orchestration layer: three
advisory personas (HRSpecialist, CareerPartner, WorkplaceAdvisor) each build a
templated prompt string and issue one call to an external text-generation
capability; the orchestrator (HRPartnerTeam.get_hr_advice) runs them in order,
feeding each stage's output text into the next stage's prompt, and records a
workflow log entry after all three stages complete.

Embedding conventions:
- an input record (Python dict of strings) is an association list with the
  dict's `.get(key, default)` lookup;
- the external generation capability is an oracle parameter
  `gen : Nat -> String -> Except GenError String`, indexed by the position of
  the call in the request (0, 1, 2), so that per-call failures can be modelled;
- each stage returns the list of prompts it sent to the oracle together with
  the oracle's answer; the orchestrator concatenates those traces, so "exactly
  three calls, in order" is a statement about the trace;
- Python exceptions raised by the generation call are `Except.error`; the
  orchestrator's mutable `self.workflow_logs` list is threaded explicitly, and
  its state after the call is returned even when the call fails;
- the prior-context argument of the second and third stages is `Option String`
  because the Python parameter is untyped and may receive `None`; a Python
  f-string renders `None` as the text "None", captured by `fstr`.
-/

/-- An input record: the user-supplied mapping from field names to string
values (the Python dict `input_data`). -/
abbrev InputRecord := List (String × String)

/-- Dictionary lookup with a default: the Python `input_data.get(key, default)`. -/
def InputRecord.get : InputRecord → String → String → String
  | [], _, d => d
  | kv :: rest, key, d => if kv.1 = key then kv.2 else InputRecord.get rest key d

/-- Failure of the external text-generation capability (any exception raised by
`model.generate_content`). -/
inductive GenError where
  | generationFailure (msg : String)
deriving DecidableEq

/-- The external generation capability: given the index of the call within the
current request and the prompt text, it either returns the generated text or
fails. The program issues its calls with indices 0, 1, 2. -/
abbrev GenOracle := Nat → String → Except GenError String

/-- Python f-string rendering of a value that is either a string or None:
`None` prints as the literal text "None". -/
def fstr : Option String → String
  | some s => s
  | none => "None"

namespace HRSpecialist

/-- The Policy Advisor persona name (field `expert_name`). -/
def expert_name : String := "김민준 인사 전문가"

/-- The Policy Advisor persona introduction (field `expert_intro`). -/
def expert_intro : String := "
        안녕하세요, 김민준 인사 전문가입니다.
        저는 인사 정책, 노동법, 복리후생, 평가 시스템 등 회사의 공식적인 인사 제도에 대한 전문 지식을 제공합니다.
        15년간의 대기업 인사팀 및 노무 컨설팅 경험을 바탕으로 정확하고 실용적인 인사 관련 정보를 안내해 드리겠습니다.
        "

/-- Template for the 고용/계약 category (method `_create_employment_prompt`). -/
def _create_employment_prompt (input_data : InputRecord) : String :=
  "
        다음 고용/계약 관련 질문에 대해 인사 정책 관점에서 분석해주세요:

        " ++ input_data.get "question" "" ++ "

        다음 항목을 포함하는 분석을 제공해주세요:
        1. 관련 노동법 및 법적 권리/의무
        2. 일반적인 고용 계약 관행 및 조건
        3. 회사별 차이가 있을 수 있는 정책 영역
        4. 근로자가 확인하거나 협상할 수 있는 사항
        5. 계약/고용 과정에서 주의해야 할 점

        현재 직급/직무: " ++ input_data.get "position" "정보 없음" ++ "
        " ++ "근무 산업: " ++ input_data.get "industry" "정보 없음" ++ "
        경력 기간: " ++ input_data.get "experience" "정보 없음" ++ "
        "

/-- Template for the 급여/복리후생 category (method `_create_compensation_prompt`). -/
def _create_compensation_prompt (input_data : InputRecord) : String :=
  "
        다음 급여/복리후생 관련 질문에 대해 인사 정책 관점에서 분석해주세요:

        " ++ input_data.get "question" "" ++ "

        다음 항목을 포함하는 분석을 제공해주세요:
        1. 관련 법적 기준 및 의무 사항
        2. 일반적인 업계 보상 체계 및 관행
        3. 법정/비법정 복리후생 구분
        4. 세금 및 사회보험 관련 고려사항
        5. 협상 가능한 영역 및 접근 방법

        현재 직급/직무: " ++ input_data.get "position" "정보 없음" ++ "
        " ++ "근무 산업: " ++ input_data.get "industry" "정보 없음" ++ "
        경력 기간: " ++ input_data.get "experience" "정보 없음" ++ "
        지역: " ++ input_data.get "location" "정보 없음" ++ "
        "

/-- Template for the 평가/성과 category (method `_create_performance_prompt`). -/
def _create_performance_prompt (input_data : InputRecord) : String :=
  "
        다음 평가/성과 관련 질문에 대해 인사 정책 관점에서 분석해주세요:

        " ++ input_data.get "question" "" ++ "

        다음 항목을 포함하는 분석을 제공해주세요:
        1. 일반적인 기업 평가 시스템 구조
        2. 평가 결과의 활용 (승진, 보상, 교육 연계)
        3. 객관적 평가를 위한 제도적 장치
        4. 평가 관련 근로자의 권리와 이의제기 절차
        5. 평가 시스템 유형별 특징과 대응 방법

        현재 직급/직무: " ++ input_data.get "position" "정보 없음" ++ "
        근무 산업: " ++ input_data.get "industry" "정보 없음" ++ "
        회사 규모: " ++ input_data.get "company_size" "정보 없음" ++ "
        "

/-- Template for the 직장 내 문제 category (method `_create_workplace_issue_prompt`). -/
def _create_workplace_issue_prompt (input_data : InputRecord) : String :=
  "
        다음 직장 내 문제 관련 질문에 대해 인사 정책 관점에서 분석해주세요:

        " ++ input_data.get "question" "" ++ "

        다음 항목을 포함하는 분석을 제공해주세요:
        1. 관련 법규 및 보호 장치
        2. 회사 내 공식적 해결 절차 및 채널
        3. 인사팀/고충처리위원회의 역할
        4. 문제 해결을 위한 공식 문서화 방법
        5. 외부 지원/상담 기관 정보

        문제 유형: " ++ input_data.get "issue_type" "정보 없음" ++ "
        직급/직책: " ++ input_data.get "position" "정보 없음" ++ "
        회사 규모: " ++ input_data.get "company_size" "정보 없음" ++ "
        "

/-- Template for the 경력 개발 category (method `_create_career_hr_prompt`). -/
def _create_career_hr_prompt (input_data : InputRecord) : String :=
  "
        다음 경력 개발 관련 질문에 대해 인사 정책 관점에서 분석해주세요:

        " ++ input_data.get "question" "" ++ "

        다음 항목을 포함하는 분석을 제공해주세요:
        1. 기업의 일반적인 경력 개발 제도
        2. 직급/승진 체계 및 요건
        3. 사내 교육/훈련 프로그램 활용
        4. 자기계발 지원 제도 및 신청 방법
        5. 경력 개발 계획과 인사평가 연계 방법

        현재 직급/직무: " ++ input_data.get "position" "정보 없음" ++ "
        목표 경력 경로: " ++ input_data.get "career_goal" "정보 없음" ++ "
        경력 기간: " ++ input_data.get "experience" "정보 없음" ++ "
        "

/-- Fallback template for unrecognized categories (method `_create_general_hr_prompt`). -/
def _create_general_hr_prompt (input_data : InputRecord) (service_type : String) : String :=
  "
        다음 " ++ service_type ++ " 관련 질문에 대해 인사 정책 관점에서 분석해주세요:

        " ++ input_data.get "question" "" ++ "

        관련 인사 정책, 법규, 제도, 일반적 관행을 포함한 분석을 제공해주세요.
        정확한 정보를 바탕으로 실용적인 조언을 제공해 주세요.
        "

/-- Category dispatch of `analyze`: the if/elif chain on `service_type` that
picks the template (the spec's per-role `select`). -/
def select (service_type : String) (input_data : InputRecord) : String :=
  if service_type = "고용/계약" then _create_employment_prompt input_data
  else if service_type = "급여/복리후생" then _create_compensation_prompt input_data
  else if service_type = "평가/성과" then _create_performance_prompt input_data
  else if service_type = "직장 내 문제" then _create_workplace_issue_prompt input_data
  else if service_type = "경력 개발" then _create_career_hr_prompt input_data
  else _create_general_hr_prompt input_data service_type

/-- The full prompt sent to generation by `analyze`: the selected template
wrapped in the persona preamble. -/
def analyze_prompt (service_type : String) (input_data : InputRecord) : String :=
  let prompt := select service_type input_data
  "
        당신은 '" ++ expert_name ++ "'이라는 인사 정책 및 제도 전문가입니다.
        " ++ expert_intro ++ "

        " ++ prompt ++ "

        분석 결과에는 관련 인사 정책, 제도, 법규, 일반적인 기업 관행을 반드시 포함해 주세요.
        정확한 정보를 제공하되, 이해하기 쉬운 언어로 설명해 주세요.
        법적 조언이 필요한 경우 전문가 상담을 권고하는 문구를 포함해 주세요.
        "

/-- Method `HRSpecialist.analyze`: build the prompt and issue one generation
call. Returns the list of prompts sent (the stage's call trace) and the
outcome. -/
def analyze (gen : GenOracle) (idx : Nat) (service_type : String)
    (input_data : InputRecord) : List String × Except GenError String :=
  let prompt := analyze_prompt service_type input_data
  ([prompt], gen idx prompt)

end HRSpecialist

namespace CareerPartner

/-- The Career Advisor persona name (field `expert_name`). -/
def expert_name : String := "이서연 경력 파트너"

/-- The Career Advisor persona introduction (field `expert_intro`). -/
def expert_intro : String := "
        안녕하세요, 이서연 경력 파트너입니다.
        저는 직장인의 경력 개발, 역량 향상, 승진/이직 전략 등 전문적 성장을 지원합니다.
        12년간의 경력 코칭 및 인재 개발 경험을 통해 여러분의 커리어 여정을 함께 설계하겠습니다.
        "

/-- Template for the 고용/계약 category (method `_create_employment_career_prompt`);
the `previous_analysis` parameter is accepted but unused, as in the source. -/
def _create_employment_career_prompt (previous_analysis : Option String)
    (input_data : InputRecord) : String :=
  "
        고용/계약 관련 상황에서의 경력 개발 관점 조언을 제공해주세요:

        1. 계약 조건과 경력 발전 기회 연계 방법
           - 역량 개발 지원 조항 확인/협상 포인트
           - 경력 성장에 유리한 계약 조건
           - 성장 가능성 평가를 위한 질문/체크리스트

        2. 계약 유형별 경력 개발 전략
           - 계약 형태에 따른 경력 관리 접근법
           - 단기/장기 계약별 역량 개발 우선순위
           - 계약 기간 내 최대 성장을 위한 전략

        3. 입사 초기/계약 갱신 시 경력 개발 기회 확보
           - OJT/멘토링 프로그램 활용법
           - 성장 기회 협상 및 요청 방법
           - 경력 개발 계획 수립 및 공유 방법

        현재 직급/직무: " ++ input_data.get "position" "정보 없음" ++ "
        경력 목표: " ++ input_data.get "career_goal" "정보 없음" ++ "
        경력 기간: " ++ input_data.get "experience" "정보 없음" ++ "
        "

/-- Template for the 급여/복리후생 category (method `_create_compensation_career_prompt`). -/
def _create_compensation_career_prompt (previous_analysis : Option String)
    (input_data : InputRecord) : String :=
  "
        급여/복리후생 관련 상황에서의 경력 개발 관점 조언을 제공해주세요:

        1. 보상 패키지와 경력 개발 연계
           - 교육/자기계발 지원 제도 활용법
           - 성과급/인센티브 시스템을 성장 동력으로 활용
           - 복리후생을 역량 개발에 활용하는 방법

        2. 급여 협상과 경력 가치 증대
           - 역량/경험에 따른 시장 가치 평가
           - 급여 협상 시 역량/성과 활용 전략
           - 금전적/비금전적 보상 균형 설계

        3. 보상 체계 이해를 통한 경력 계획
           - 회사/업계 보상 체계 파악 방법
           - 경력 단계별 적정 보상 범위
           - 핵심 역량 개발을 통한 가치 증대 방법

        현재 직급/직무: " ++ input_data.get "position" "정보 없음" ++ "
        급여 정보: " ++ input_data.get "salary" "정보 없음" ++ "
        경력 기간: " ++ input_data.get "experience" "정보 없음" ++ "
        "

/-- Template for the 평가/성과 category (method `_create_performance_career_prompt`). -/
def _create_performance_career_prompt (previous_analysis : Option String)
    (input_data : InputRecord) : String :=
  "
        평가/성과 관련 상황에서의 경력 개발 관점 조언을 제공해주세요:

        1. 평가 시스템을 경력 개발에 활용하는 방법
           - 평가 결과 해석 및 역량 갭 분석
           - 피드백을 성장 기회로 전환하는 접근법
           - 목표 설정을 통한 경력 방향성 명확화

        2. 성과 향상을 위한 역량 개발 전략
           - 직무별 핵심 역량 식별 및 집중 개발
           - 평가 항목별 개선 계획 수립
           - 상사/동료 피드백 활용 방법

        3. 평가 과정을 통한 경력 계획 조정
           - 강점/약점 파악을 통한 경력 방향 설정
           - 평가 면담을 성장 기회로 활용하는 방법
           - 역량 진단에 기반한 교육/훈련 계획

        현재 직급/직무: " ++ input_data.get "position" "정보 없음" ++ "
        평가 고민: " ++ input_data.get "performance_concern" "정보 없음" ++ "
        경력 목표: " ++ input_data.get "career_goal" "정보 없음" ++ "
        "

/-- Template for the 직장 내 문제 category (method `_create_workplace_issue_career_prompt`). -/
def _create_workplace_issue_career_prompt (previous_analysis : Option String)
    (input_data : InputRecord) : String :=
  "
        직장 내 문제 상황에서의 경력 개발 관점 조언을 제공해주세요:

        1. 문제 상황을 성장 기회로 전환하는 접근법
           - 갈등/도전 상황에서의 역량 개발 가능성
           - 문제 해결 과정을 통한 리더십 발휘 기회
           - 어려운 상황을 통한 회복탄력성 구축

        2. 문제 해결과 전문성/경력 이미지 관리
           - 문제 상황에서의 전문가적 태도 유지
           - 건설적 해결 과정을 통한 평판 관리
           - 상황 해결 후 회복 및 성장 계획

        3. 장기적 경력 관점에서의 대응 전략
           - 현 상황이 경력에 미치는 영향 평가
           - 필요시 대안적 경력 경로 탐색
           - 문제 경험을 미래 직무에 활용하는 방법

        문제 유형: " ++ input_data.get "issue_type" "정보 없음" ++ "
        현재 직급/직무: " ++ input_data.get "position" "정보 없음" ++ "
        경력 기간: " ++ input_data.get "experience" "정보 없음" ++ "
        "

/-- Template for the 경력 개발 category (method `_create_career_development_prompt`). -/
def _create_career_development_prompt (previous_analysis : Option String)
    (input_data : InputRecord) : String :=
  "
        경력 개발에 대한 종합적인 조언을 제공해주세요:

        1. 개인 맞춤형 경력 개발 로드맵
           - 현재 위치 진단 및 목표 설정 방법
           - 단계별 성장 계획 및 이정표
           - 역량 개발 우선순위 및 접근법

        2. 역량 향상을 위한 실천적 전략
           - 직무/산업별 핵심 역량 개발 방법
           - 공식/비공식 학습 기회 활용
           - 자기주도 학습 및 실천 계획

        3. 경력 성장을 위한 전략적 포지셔닝
           - 조직 내 가시성 확보 및 영향력 구축
           - 네트워킹 및 멘토십 활용 방법
           - 승진/이직을 위한 포트폴리오 구축

        4. 미래 트렌드에 대비한 역량 개발
           - 산업/직무 변화 예측 및 대응
           - 기술적/소프트 스킬 균형 개발
           - 지속적 성장을 위한 학습 습관

        현재 직급/직무: " ++ input_data.get "position" "정보 없음" ++ "
        경력 목표: " ++ input_data.get "career_goal" "정보 없음" ++ "
        관심 역량 영역: " ++ input_data.get "skill_interests" "정보 없음" ++ "
        경력 기간: " ++ input_data.get "experience" "정보 없음" ++ "
        "

/-- Fallback template for unrecognized categories (method `_create_general_career_prompt`). -/
def _create_general_career_prompt (previous_analysis : Option String)
    (input_data : InputRecord) (service_type : String) : String :=
  "
        다음 " ++ service_type ++ " 관련 질문에 대해 경력 개발 관점에서 분석해주세요:

        질문:
        " ++ input_data.get "question" "" ++ "

        경력 성장 전략, 역량 개발 방법, 직무 전문성 향상 방안을 구체적으로 제시해주세요.
        "

/-- Category dispatch of `enhance`: the if/elif chain on `service_type` that
picks the template (the spec's per-role `select`). -/
def select (previous_analysis : Option String) (service_type : String)
    (input_data : InputRecord) : String :=
  if service_type = "고용/계약" then _create_employment_career_prompt previous_analysis input_data
  else if service_type = "급여/복리후생" then _create_compensation_career_prompt previous_analysis input_data
  else if service_type = "평가/성과" then _create_performance_career_prompt previous_analysis input_data
  else if service_type = "직장 내 문제" then _create_workplace_issue_career_prompt previous_analysis input_data
  else if service_type = "경력 개발" then _create_career_development_prompt previous_analysis input_data
  else _create_general_career_prompt previous_analysis input_data service_type

/-- The full prompt sent to generation by `enhance`: the selected template
wrapped in the persona preamble, which embeds the previous analysis inside the
delimited block (the Python f-string renders a None prior context as "None"). -/
def enhance_prompt (previous_analysis : Option String) (service_type : String)
    (input_data : InputRecord) : String :=
  let prompt := select previous_analysis service_type input_data
  "
        당신은 '" ++ expert_name ++ "'이라는 경력 개발 전문 파트너입니다.
        " ++ expert_intro ++ "

        인사 전문가가 제공한 다음 분석을 검토하고, 경력 개발 관점에서 보완해주세요:

        === 인사 전문가의 분석 ===
        " ++ fstr previous_analysis ++ "
        === 분석 끝 ===

        " ++ prompt ++ "

        실질적인 경력 성장 전략, 역량 개발 방법, 전문성 향상 방안을 반드시 포함해 주세요.
        실현 가능하고 구체적인 조언을 제공하며, 업계 트렌드와 실제 현장의 경험을 반영해 주세요.
        "

/-- Method `CareerPartner.enhance`: build the prompt and issue one generation
call. The source performs no check on `previous_analysis`. Returns the list of
prompts sent (the stage's call trace) and the outcome. -/
def enhance (gen : GenOracle) (idx : Nat) (previous_analysis : Option String)
    (service_type : String) (input_data : InputRecord) :
    List String × Except GenError String :=
  let prompt := enhance_prompt previous_analysis service_type input_data
  ([prompt], gen idx prompt)

end CareerPartner

namespace WorkplaceAdvisor

/-- The Culture Advisor persona name (field `expert_name`). -/
def expert_name : String := "박지훈 직장 어드바이저"

/-- The Culture Advisor persona introduction (field `expert_intro`). -/
def expert_intro : String := "
        안녕하세요, 박지훈 직장 어드바이저입니다.
        저는 직장 내 대인관계, 소통 전략, 갈등 관리, 조직 문화 적응 등 직장 생활의 인간적 측면을 전문으로 합니다.
        13년간의 조직심리 컨설팅 및 기업 문화 연구 경험을 통해 건강하고 생산적인 직장 생활을 위한 실질적 조언을 제공하겠습니다.
        "

/-- Template for the 고용/계약 category (method `_create_employment_workplace_prompt`);
the `previous_analysis` parameter is accepted but unused, as in the source. -/
def _create_employment_workplace_prompt (previous_analysis : Option String)
    (input_data : InputRecord) : String :=
  "
        고용/계약 관련 상황에서의 직장 문화 및 대인관계 관점 조언을 제공해주세요:

        1. 고용/계약 과정에서의 문화적 요소 파악
           - 면접/협상 과정에서 조직 문화 파악법
           - 계약 조건에 반영된 조직 가치 읽어내기
           - 공식/비공식 문화 간 차이점 식별

        2. 입사 초기 조직 적응 및 관계 형성
           - 효과적인 온보딩을 위한 소통 전략
           - 핵심 관계자와의 라포 형성 방법
           - 조직 내 성공적 첫인상 구축

        3. 계약 관계에서의 심리적 계약 관리
           - 명시적/암묵적 기대 사항 파악
           - 건강한 경계 설정 및 유지
           - 조직 내 지위/역할에 맞는 관계 형성

        현재 직급/직무: " ++ input_data.get "position" "정보 없음" ++ "
        직장 문화 유형: " ++ input_data.get "workplace_culture" "정보 없음" ++ "
        개인 성향: " ++ input_data.get "personality" "정보 없음" ++ "
        "

/-- Template for the 급여/복리후생 category (method `_create_compensation_workplace_prompt`). -/
def _create_compensation_workplace_prompt (previous_analysis : Option String)
    (input_data : InputRecord) : String :=
  "
        급여/복리후생 관련 상황에서의 직장 문화 및 대인관계 관점 조언을 제공해주세요:

        1. 보상 관련 대화의 문화적 접근
           - 급여/복리후생 논의를 위한 적절한 소통 방식
           - 문화별 보상 협상 접근법 차이
           - 예민한 주제 다루기 위한 대화 전략

        2. 보상 시스템과 팀 역학 관계
           - 보상 차이가 팀 관계에 미치는 영향 관리
           - 공정성 인식과 관계 유지 전략
           - 보상 관련 갈등 예방 및 해소법

        3. 복리후생 활용과 직장 문화 참여
           - 복리후생을 통한 조직 네트워킹 기회
           - 복리후생 활용 시 문화적 고려사항
           - 팀/부서별 비공식 혜택 파악 및 활용

        현재 직급/직무: " ++ input_data.get "position" "정보 없음" ++ "
        조직 규모: " ++ input_data.get "company_size" "정보 없음" ++ "
        문화적 특성: " ++ input_data.get "workplace_culture" "정보 없음" ++ "
        "

/-- Template for the 평가/성과 category (method `_create_performance_workplace_prompt`). -/
def _create_performance_workplace_prompt (previous_analysis : Option String)
    (input_data : InputRecord) : String :=
  "
        평가/성과 관련 상황에서의 직장 문화 및 대인관계 관점 조언을 제공해주세요:

        1. 평가 과정에서의 효과적 소통 전략
           - 평가자/피평가자 관계 관리 방법
           - 건설적 피드백 주고받는 대화 기술
           - 어려운 평가 결과 수용 및 대응법

        2. 성과 향상을 위한 관계적 접근
           - 멘토/롤모델 식별 및 관계 구축
           - 동료 피드백 요청 및 활용 방법
           - 상사와의 기대치 조율 기술

        3. 평가 문화에 따른 적응 전략
           - 경쟁/협력 중심 평가 문화별 접근법
           - 공식/비공식 평가 요소 파악
           - 평가 시즌의 조직 분위기 관리법

        현재 직급/직무: " ++ input_data.get "position" "정보 없음" ++ "
        팀 구조: " ++ input_data.get "team_structure" "정보 없음" ++ "
        평가 문화: " ++ input_data.get "evaluation_culture" "정보 없음" ++ "
        "

/-- Template for the 직장 내 문제 category (method `_create_workplace_issue_complete_prompt`). -/
def _create_workplace_issue_complete_prompt (previous_analysis : Option String)
    (input_data : InputRecord) : String :=
  "
        직장 내 문제 상황에서의 종합적인 문화 및 대인관계 조언을 제공해주세요:

        1. 문제 상황의 인간관계 역학 분석
           - 갈등 당사자 및 이해관계자 매핑
           - 공식/비공식 권력 구조 파악
           - 문화적 배경이 갈등에 미치는 영향

        2. 효과적인 문제 해결 커뮤니케이션
           - 상황별 적절한 대화 접근법
           - 감정 관리 및 명확한 의사 전달 기술
           - 갈등 완화 및 관계 회복 대화법

        3. 문제 이후 관계 및 평판 관리
           - 신뢰 회복 및 관계 재구축 전략
           - 조직 내 평판 관리 및 지지 확보
           - 장기적 관계 유지를 위한 후속 조치

        4. 조직 문화 내에서의 해결 방안
           - 공식/비공식 문화적 규범 활용
           - 조직 내 지지 네트워크 구축
           - 유사 상황 재발 방지를 위한 문화적 접근

        문제 유형: " ++ input_data.get "issue_type" "정보 없음" ++ "
        관계 구조: " ++ input_data.get "relationship" "정보 없음" ++ "
        조직 문화: " ++ input_data.get "workplace_culture" "정보 없음" ++ "
        개인 성향: " ++ input_data.get "personality" "정보 없음" ++ "
        "

/-- Template for the 경력 개발 category (method `_create_career_workplace_prompt`). -/
def _create_career_workplace_prompt (previous_analysis : Option String)
    (input_data : InputRecord) : String :=
  "
        경력 개발 상황에서의 직장 문화 및 대인관계 관점 조언을 제공해주세요:

        1. 성장을 위한 조직 내 네트워킹 전략
           - 핵심 관계망 구축 및 유지 방법
           - 멘토/스폰서 관계 형성 접근법
           - 부서 간 협업을 통한 가시성 확보

        2. 조직 문화에 맞는 경력 개발 소통법
           - 성장 의지 표현의 문화적 적절성
           - 직무 변경/승진 논의를 위한 대화 전략
           - 학습 기회 요청의 효과적 방법

        3. 다양한 이해관계자와의 관계 관리
           - 상사/부하/동료별 관계 관리 전략
           - 비공식적 영향력 구축 방법
           - 평판 관리 및 브랜딩 접근법

        4. 조직 문화 이해를 통한 경력 성장
           - 문화적 성공 요인 파악 및 적용
           - 비공식 규칙 및 관행 활용법
           - 조직 가치와 개인 목표 연계 방법

        현재 직급/직무: " ++ input_data.get "position" "정보 없음" ++ "
        경력 목표: " ++ input_data.get "career_goal" "정보 없음" ++ "
        조직 문화: " ++ input_data.get "workplace_culture" "정보 없음" ++ "
        대인관계 스타일: " ++ input_data.get "relationship_style" "정보 없음" ++ "
        "

/-- Fallback template for unrecognized categories (method `_create_general_workplace_prompt`). -/
def _create_general_workplace_prompt (previous_analysis : Option String)
    (input_data : InputRecord) (service_type : String) : String :=
  "
        다음 " ++ service_type ++ " 관련 질문에 대해 직장 문화 및 대인관계 관점에서 종합적인 조언을 제공해주세요:

        질문:
        " ++ input_data.get "question" "" ++ "

        효과적인 소통 전략, 관계 구축 방법, 문화 적응 기술을 포함한 종합적인 조언을 제공해주세요.
        "

/-- Category dispatch of `finalize`: the if/elif chain on `service_type` that
picks the template (the spec's per-role `select`). -/
def select (previous_analysis : Option String) (service_type : String)
    (input_data : InputRecord) : String :=
  if service_type = "고용/계약" then _create_employment_workplace_prompt previous_analysis input_data
  else if service_type = "급여/복리후생" then _create_compensation_workplace_prompt previous_analysis input_data
  else if service_type = "평가/성과" then _create_performance_workplace_prompt previous_analysis input_data
  else if service_type = "직장 내 문제" then _create_workplace_issue_complete_prompt previous_analysis input_data
  else if service_type = "경력 개발" then _create_career_workplace_prompt previous_analysis input_data
  else _create_general_workplace_prompt previous_analysis input_data service_type

/-- The full prompt sent to generation by `finalize`: the selected template
wrapped in the persona preamble, which embeds the previous analysis inside the
delimited block (the Python f-string renders a None prior context as "None"). -/
def finalize_prompt (previous_analysis : Option String) (service_type : String)
    (input_data : InputRecord) : String :=
  let prompt := select previous_analysis service_type input_data
  "
        당신은 '" ++ expert_name ++ "'이라는 직장 문화 및 대인관계 전문가입니다.
        " ++ expert_intro ++ "

        인사 전문가와 경력 파트너가 제공한, 다음 분석을 검토하고 최종적으로 완성해주세요:

        === 이전 전문가들의 분석 ===
        " ++ fstr previous_analysis ++ "
        === 분석 끝 ===

        " ++ prompt ++ "

        최종 조언에는 다음 세 전문가의 관점이 균형있게 통합되어야 합니다:
        1. 인사 전문가 (정책/제도 관점)
        2. 경력 파트너 (성장/개발 관점)
        3. 직장 어드바이저 (문화/관계 관점)

        실용적이고 적용 가능한 조언, 건강한 직장 생활을 위한 대인관계 전략, 조직 문화 적응 방법을 포함해 주세요.
        "

/-- Method `WorkplaceAdvisor.finalize`: build the prompt and issue one
generation call. Returns the list of prompts sent (the stage's call trace) and
the outcome. -/
def finalize (gen : GenOracle) (idx : Nat) (previous_analysis : Option String)
    (service_type : String) (input_data : InputRecord) :
    List String × Except GenError String :=
  let prompt := finalize_prompt previous_analysis service_type input_data
  ([prompt], gen idx prompt)

end WorkplaceAdvisor

/-- One step entry of a workflow log (the dicts appended to
`workflow_log["steps"]`). -/
structure WorkflowStep where
  expert : String
  action : String
deriving DecidableEq

/-- One run-history entry (the `workflow_log` dict built by `get_hr_advice`).
The timestamp is the wall-clock string computed at entry; it is a parameter of
the embedding. -/
structure WorkflowLog where
  service_type : String
  timestamp : String
  experts_involved : List String
  steps : List WorkflowStep
deriving DecidableEq

/-- The three-part result dict returned by a successful `get_hr_advice` call. -/
structure AdviceResult where
  hr : String
  career : String
  workplace : String
deriving DecidableEq

namespace HRPartnerTeam

/-- Method `HRPartnerTeam.get_hr_advice`: run the three experts in order,
feeding each stage's output into the next stage, and append one workflow log
entry after all three stages complete. Returns the workflow-log list after the
call (unchanged when a stage fails, since the Python append at the end is never
reached on an exception), the concatenated trace of prompts sent to the
generation capability, and the outcome (the three-part result, or the
propagated generation error). Streamlit status output is presentation-only and
omitted. -/
def get_hr_advice (gen : GenOracle) (timestamp : String)
    (workflow_logs : List WorkflowLog) (service_type : String)
    (input_data : InputRecord) :
    List WorkflowLog × List String × Except GenError AdviceResult :=
  match HRSpecialist.analyze gen 0 service_type input_data with
  | (t1, Except.error e) => (workflow_logs, t1, Except.error e)
  | (t1, Except.ok hr_analysis) =>
    match CareerPartner.enhance gen 1 (some hr_analysis) service_type input_data with
    | (t2, Except.error e) => (workflow_logs, t1 ++ t2, Except.error e)
    | (t2, Except.ok career_analysis) =>
      match WorkplaceAdvisor.finalize gen 2 (some career_analysis) service_type input_data with
      | (t3, Except.error e) => (workflow_logs, t1 ++ t2 ++ t3, Except.error e)
      | (t3, Except.ok workplace_advice) =>
        let workflow_log : WorkflowLog :=
          { service_type := service_type
            timestamp := timestamp
            experts_involved := ["HRSpecialist", "CareerPartner", "WorkplaceAdvisor"]
            steps := [⟨"HRSpecialist", "hr_analysis"⟩,
                      ⟨"CareerPartner", "career_enhancement"⟩,
                      ⟨"WorkplaceAdvisor", "workplace_finalization"⟩] }
        (workflow_logs ++ [workflow_log], t1 ++ t2 ++ t3,
         Except.ok { hr := hr_analysis, career := career_analysis,
                     workplace := workplace_advice })

end HRPartnerTeam

/-- An occurrence predicate on strings: the needle appears verbatim as a
contiguous substring of the haystack. -/
abbrev occursIn (needle hay : String) : Prop := needle.data <:+: hay.data

lemma occursIn_refl (s : String) : occursIn s s := List.infix_refl s.data

lemma occursIn_appL (x : String) {needle hay : String} (h : occursIn needle hay) :
    occursIn needle (x ++ hay) :=
  h.trans (List.suffix_append x.data hay.data).isInfix

lemma occursIn_appR (x : String) {needle hay : String} (h : occursIn needle hay) :
    occursIn needle (hay ++ x) :=
  h.trans (List.prefix_append hay.data x.data).isInfix

lemma occursIn_pair (a b C : String) : occursIn (a ++ b) (C ++ a ++ b) := by
  refine ⟨C.data, [], ?_⟩
  simp

lemma ne_empty_of_data_ne_nil (s : String) (h : s.data ≠ []) : s ≠ "" :=
  fun hc => h (by rw [hc])

lemma append_ne_emptyR (a b : String) (h : b.data ≠ []) : a ++ b ≠ "" :=
  ne_empty_of_data_ne_nil _ (fun hc => h (List.append_eq_nil.mp hc).2)

lemma InputRecord.get_absent (inp : InputRecord) (key d : String)
    (h : ∀ kv ∈ inp, kv.1 ≠ key) : inp.get key d = d := by
  induction inp with
  | nil => rfl
  | cons kv rest ih =>
    rw [InputRecord.get, if_neg (h kv (List.mem_cons_self kv rest))]
    exact ih fun kv' hkv' => h kv' (List.mem_cons_of_mem kv hkv')

lemma InputRecord.get_cons_self (key v d : String) (inp : InputRecord) :
    InputRecord.get ((key, v) :: inp) key d = v := by
  rw [InputRecord.get, if_pos rfl]

lemma InputRecord.get_cons_ne (hk v key d : String) (inp : InputRecord)
    (h : hk ≠ key) : InputRecord.get ((hk, v) :: inp) key d = inp.get key d := by
  rw [InputRecord.get, if_neg h]

lemma enhance_prompt_contains_prev (prev : Option String) (st : String)
    (inp : InputRecord) : occursIn (fstr prev) (CareerPartner.enhance_prompt prev st inp) := by
  unfold CareerPartner.enhance_prompt
  exact occursIn_appR _ (occursIn_appR _ (occursIn_appR _
    (occursIn_appL _ (occursIn_refl _))))

lemma finalize_prompt_contains_prev (prev : Option String) (st : String)
    (inp : InputRecord) : occursIn (fstr prev) (WorkplaceAdvisor.finalize_prompt prev st inp) := by
  unfold WorkplaceAdvisor.finalize_prompt
  exact occursIn_appR _ (occursIn_appR _ (occursIn_appR _
    (occursIn_appL _ (occursIn_refl _))))

lemma question_in_employment (inp : InputRecord) :
    occursIn (inp.get "question" "") (HRSpecialist._create_employment_prompt inp) := by
  unfold HRSpecialist._create_employment_prompt
  exact occursIn_appR _ (occursIn_appR _ (occursIn_appR _ (occursIn_appR _
    (occursIn_appR _ (occursIn_appR _ (occursIn_appR _ (occursIn_appR _
      (occursIn_appL _ (occursIn_refl _)))))))))

lemma question_in_compensation (inp : InputRecord) :
    occursIn (inp.get "question" "") (HRSpecialist._create_compensation_prompt inp) := by
  unfold HRSpecialist._create_compensation_prompt
  exact occursIn_appR _ (occursIn_appR _ (occursIn_appR _ (occursIn_appR _
    (occursIn_appR _ (occursIn_appR _ (occursIn_appR _ (occursIn_appR _
      (occursIn_appR _ (occursIn_appR _ (occursIn_appL _ (occursIn_refl _)))))))))))

lemma question_in_performance (inp : InputRecord) :
    occursIn (inp.get "question" "") (HRSpecialist._create_performance_prompt inp) := by
  unfold HRSpecialist._create_performance_prompt
  exact occursIn_appR _ (occursIn_appR _ (occursIn_appR _ (occursIn_appR _
    (occursIn_appR _ (occursIn_appR _ (occursIn_appR _
      (occursIn_appL _ (occursIn_refl _))))))))

lemma question_in_workplace_issue (inp : InputRecord) :
    occursIn (inp.get "question" "") (HRSpecialist._create_workplace_issue_prompt inp) := by
  unfold HRSpecialist._create_workplace_issue_prompt
  exact occursIn_appR _ (occursIn_appR _ (occursIn_appR _ (occursIn_appR _
    (occursIn_appR _ (occursIn_appR _ (occursIn_appR _
      (occursIn_appL _ (occursIn_refl _))))))))

lemma question_in_career_hr (inp : InputRecord) :
    occursIn (inp.get "question" "") (HRSpecialist._create_career_hr_prompt inp) := by
  unfold HRSpecialist._create_career_hr_prompt
  exact occursIn_appR _ (occursIn_appR _ (occursIn_appR _ (occursIn_appR _
    (occursIn_appR _ (occursIn_appR _ (occursIn_appR _
      (occursIn_appL _ (occursIn_refl _))))))))

lemma question_in_general_hr (inp : InputRecord) (st : String) :
    occursIn (inp.get "question" "") (HRSpecialist._create_general_hr_prompt inp st) := by
  unfold HRSpecialist._create_general_hr_prompt
  exact occursIn_appR _ (occursIn_appL _ (occursIn_refl _))

lemma hr_select_ne_empty (st : String) (inp : InputRecord) :
    HRSpecialist.select st inp ≠ "" := by
  unfold HRSpecialist.select
  split_ifs <;> exact append_ne_emptyR _ _ (by decide)

lemma career_select_ne_empty (p : Option String) (st : String)
    (inp : InputRecord) : CareerPartner.select p st inp ≠ "" := by
  unfold CareerPartner.select
  split_ifs <;> exact append_ne_emptyR _ _ (by decide)

lemma workplace_select_ne_empty (p : Option String) (st : String)
    (inp : InputRecord) : WorkplaceAdvisor.select p st inp ≠ "" := by
  unfold WorkplaceAdvisor.select
  split_ifs <;> exact append_ne_emptyR _ _ (by decide)

/-- C2: for every Policy Advisor output text p, every service type and every
input record, the prompt that CareerPartner.enhance sends to the generation
capability contains p verbatim as a substring. -/
theorem C2_career_prompt_contains_policy_output (p st : String) (inp : InputRecord) :
    occursIn p (CareerPartner.enhance_prompt (some p) st inp) :=
  enhance_prompt_contains_prev (some p) st inp

/-- C3: for every Career Advisor output text c, every service type and every
input record, the prompt that WorkplaceAdvisor.finalize sends to the generation
capability contains c verbatim as a substring. -/
theorem C3_culture_prompt_contains_career_output (c st : String) (inp : InputRecord) :
    occursIn c (WorkplaceAdvisor.finalize_prompt (some c) st inp) :=
  finalize_prompt_contains_prev (some c) st inp

/-- C5 counterexample: invoking CareerPartner.enhance with a null prior context
(the Python None) at a concrete input silently succeeds — the generation call
is issued and its answer returned, and no error of any kind is raised. This
refutes the claim that a missing predecessor output is a MissingPriorContext
error rather than a silently succeeding call. -/
theorem C5_counterexample :
    (CareerPartner.enhance (fun _ _ => Except.ok "generated") 1 none "경력 개발" []).2
      = Except.ok "generated" := rfl

/-- C5 (amended): CareerPartner.enhance performs no check on its prior-context
argument. Invoked with a null (None) prior context it proceeds to the
generation call exactly as with a real one, embedding the Python f-string
rendering "None" of the null verbatim in the prompt; no MissingPriorContext
error exists in the code. -/
theorem C5_enhance_silently_accepts_null_context (gen : GenOracle) (idx : Nat)
    (st : String) (inp : InputRecord) :
    (CareerPartner.enhance gen idx none st inp).2
        = gen idx (CareerPartner.enhance_prompt none st inp) ∧
      occursIn "None" (CareerPartner.enhance_prompt none st inp) :=
  ⟨rfl, enhance_prompt_contains_prev none st inp⟩

set_option maxRecDepth 100000 in
/-- C6 counterexample: for the in-enumeration category 고용/계약 and the input
record whose question field is "Q", the prompt that the Career Advisor builds
(and sends to generation) does not contain the question "Q" at all — the
Career role's category-specific templates omit the question field. -/
theorem C6_counterexample :
    ¬ occursIn (InputRecord.get [("question", "Q")] "question" "")
        (CareerPartner.enhance_prompt (some "A") "고용/계약" [("question", "Q")]) := by
  intro h
  have hmem : 'Q' ∈ (CareerPartner.enhance_prompt (some "A") "고용/계약"
      [("question", "Q")]).data :=
    h.subset (show 'Q' ∈ (InputRecord.get [("question", "Q")] "question" "").data by decide)
  have hnot : ¬ 'Q' ∈ (CareerPartner.enhance_prompt (some "A") "고용/계약"
      [("question", "Q")]).data := by decide
  exact hnot hmem

/-- C6 (amended): for every request category in the closed enumeration and
every input record, the Policy Advisor's template selection returns a
non-empty prompt containing the literal question field verbatim. (As the
counterexample shows, the Career and Culture roles' category-specific
templates omit the question field, so the claim holds only for the Policy
role's selection.) -/
theorem C6_policy_select_contains_question (st : String) (inp : InputRecord)
    (h : st ∈ ["고용/계약", "급여/복리후생", "평가/성과", "직장 내 문제", "경력 개발"]) :
    occursIn (InputRecord.get inp "question" "") (HRSpecialist.select st inp) ∧
      HRSpecialist.select st inp ≠ "" := by
  refine ⟨?_, hr_select_ne_empty st inp⟩
  simp only [List.mem_cons, List.not_mem_nil, or_false] at h
  rcases h with rfl | rfl | rfl | rfl | rfl
  · exact question_in_employment inp
  · exact question_in_compensation inp
  · exact question_in_performance inp
  · exact question_in_workplace_issue inp
  · exact question_in_career_hr inp

/-- C6 witness: a concrete in-enumeration category and input record on which
the amended claim holds. -/
theorem C6_witness :
    occursIn (InputRecord.get [("question", "수습 기간 문의")] "question" "")
        (HRSpecialist.select "고용/계약" [("question", "수습 기간 문의")]) ∧
      HRSpecialist.select "고용/계약" [("question", "수습 기간 문의")] ≠ "" :=
  C6_policy_select_contains_question "고용/계약" [("question", "수습 기간 문의")] (by decide)

/-- C7: for every category value outside the recognized enumeration, each
role's template selection dispatches to its generic fallback formatter, still
returns a non-empty prompt string, and (being a total function) never raises. -/
theorem C7_unknown_category_fallback (st : String) (inp : InputRecord) (p : Option String)
    (h : st ∉ ["고용/계약", "급여/복리후생", "평가/성과", "직장 내 문제", "경력 개발"]) :
    HRSpecialist.select st inp = HRSpecialist._create_general_hr_prompt inp st ∧
    CareerPartner.select p st inp = CareerPartner._create_general_career_prompt p inp st ∧
    WorkplaceAdvisor.select p st inp
        = WorkplaceAdvisor._create_general_workplace_prompt p inp st ∧
    HRSpecialist.select st inp ≠ "" ∧
    CareerPartner.select p st inp ≠ "" ∧
    WorkplaceAdvisor.select p st inp ≠ "" := by
  simp only [List.mem_cons, List.not_mem_nil, or_false, not_or] at h
  obtain ⟨h1, h2, h3, h4, h5⟩ := h
  refine ⟨?_, ?_, ?_, hr_select_ne_empty st inp,
    career_select_ne_empty p st inp, workplace_select_ne_empty p st inp⟩
  · unfold HRSpecialist.select
    rw [if_neg h1, if_neg h2, if_neg h3, if_neg h4, if_neg h5]
  · unfold CareerPartner.select
    rw [if_neg h1, if_neg h2, if_neg h3, if_neg h4, if_neg h5]
  · unfold WorkplaceAdvisor.select
    rw [if_neg h1, if_neg h2, if_neg h3, if_neg h4, if_neg h5]

/-- C7 witness: a concrete unrecognized category on which the claim holds. -/
theorem C7_witness :
    HRSpecialist.select "근태 문의" [] = HRSpecialist._create_general_hr_prompt [] "근태 문의" ∧
    CareerPartner.select none "근태 문의" []
        = CareerPartner._create_general_career_prompt none [] "근태 문의" ∧
    WorkplaceAdvisor.select none "근태 문의" []
        = WorkplaceAdvisor._create_general_workplace_prompt none [] "근태 문의" ∧
    HRSpecialist.select "근태 문의" [] ≠ "" ∧
    CareerPartner.select none "근태 문의" [] ≠ "" ∧
    WorkplaceAdvisor.select none "근태 문의" [] ≠ "" :=
  C7_unknown_category_fallback "근태 문의" [] none (by decide)

/-- C8: for every input record from which the industry field is entirely
absent, the employment and compensation templates substitute the placeholder
정보 없음 in the industry slot (the prompt contains the line fragment
"근무 산업: 정보 없음"), and selection, being a total function, never raises. -/
theorem C8_missing_industry_placeholder (inp : InputRecord)
    (h : ∀ kv ∈ inp, kv.1 ≠ "industry") :
    occursIn "근무 산업: 정보 없음" (HRSpecialist._create_employment_prompt inp) ∧
      occursIn "근무 산업: 정보 없음" (HRSpecialist._create_compensation_prompt inp) := by
  have hi : InputRecord.get inp "industry" "정보 없음" = "정보 없음" :=
    InputRecord.get_absent inp _ _ h
  have hsplit : ("근무 산업: 정보 없음" : String) = "근무 산업: " ++ "정보 없음" := by decide
  constructor
  · unfold HRSpecialist._create_employment_prompt
    rw [hi, hsplit]
    exact occursIn_appR _ (occursIn_appR _ (occursIn_appR _ (occursIn_pair _ _ _)))
  · unfold HRSpecialist._create_compensation_prompt
    rw [hi, hsplit]
    exact occursIn_appR _ (occursIn_appR _ (occursIn_appR _ (occursIn_appR _
      (occursIn_appR _ (occursIn_pair _ _ _)))))

/-- C8 witness: a concrete input record with no industry field on which the
claim holds. -/
theorem C8_witness :
    occursIn "근무 산업: 정보 없음"
        (HRSpecialist._create_employment_prompt [("question", "연봉 협상")]) ∧
      occursIn "근무 산업: 정보 없음"
        (HRSpecialist._create_compensation_prompt [("question", "연봉 협상")]) :=
  C8_missing_industry_placeholder [("question", "연봉 협상")] (by decide)

/-- C10: if the question key is entirely absent from the input record, the
prompt builders substitute the empty string for it (the lookup defaults to ""
rather than the 정보 없음 placeholder): building with the absent key gives the
same prompt as building with the question field explicitly set to "", the
result is still non-empty, and building never raises. -/
theorem C10_missing_question_blank (inp : InputRecord)
    (h : ∀ kv ∈ inp, kv.1 ≠ "question") :
    InputRecord.get inp "question" "" = "" ∧
    HRSpecialist._create_employment_prompt inp
        = HRSpecialist._create_employment_prompt (("question", "") :: inp) ∧
    (∀ st, HRSpecialist._create_general_hr_prompt inp st
        = HRSpecialist._create_general_hr_prompt (("question", "") :: inp) st) ∧
    (∀ p st, CareerPartner._create_general_career_prompt p inp st
        = CareerPartner._create_general_career_prompt p (("question", "") :: inp) st) ∧
    HRSpecialist._create_employment_prompt inp ≠ "" := by
  have hq : InputRecord.get inp "question" "" = "" := InputRecord.get_absent inp _ _ h
  have hqp : ("question" : String) ≠ "position" := by decide
  have hqi : ("question" : String) ≠ "industry" := by decide
  have hqe : ("question" : String) ≠ "experience" := by decide
  refine ⟨hq, ?_, ?_, ?_, ?_⟩
  · unfold HRSpecialist._create_employment_prompt
    rw [hq, InputRecord.get_cons_self, InputRecord.get_cons_ne _ _ _ _ _ hqp,
      InputRecord.get_cons_ne _ _ _ _ _ hqi, InputRecord.get_cons_ne _ _ _ _ _ hqe]
  · intro st
    unfold HRSpecialist._create_general_hr_prompt
    rw [hq, InputRecord.get_cons_self]
  · intro p st
    unfold CareerPartner._create_general_career_prompt
    rw [hq, InputRecord.get_cons_self]
  · unfold HRSpecialist._create_employment_prompt
    exact append_ne_emptyR _ _ (by decide)

/-- C10 witness: a concrete input record with no question key on which the
claim holds. -/
theorem C10_witness :
    InputRecord.get [("position", "대리")] "question" "" = "" ∧
    HRSpecialist._create_employment_prompt [("position", "대리")]
        = HRSpecialist._create_employment_prompt [("question", ""), ("position", "대리")] ∧
    (∀ st, HRSpecialist._create_general_hr_prompt [("position", "대리")] st
        = HRSpecialist._create_general_hr_prompt [("question", ""), ("position", "대리")] st) ∧
    (∀ p st, CareerPartner._create_general_career_prompt p [("position", "대리")] st
        = CareerPartner._create_general_career_prompt p
            [("question", ""), ("position", "대리")] st) ∧
    HRSpecialist._create_employment_prompt [("position", "대리")] ≠ "" :=
  C10_missing_question_blank [("position", "대리")] (by decide)

/-- C1: every successful get_hr_advice call issues exactly three generation
calls — the trace of prompts sent to the oracle is precisely the three-element
list Policy prompt, Career prompt (built from the Policy output), Culture
prompt (built from the Career output), in that order, one per stage. -/
theorem C1_orchestrator_three_calls_in_order (gen : GenOracle) (ts : String)
    (logs : List WorkflowLog) (st : String) (inp : InputRecord)
    (logs' : List WorkflowLog) (trace : List String) (r : AdviceResult)
    (h : HRPartnerTeam.get_hr_advice gen ts logs st inp = (logs', trace, Except.ok r)) :
    trace = [HRSpecialist.analyze_prompt st inp,
             CareerPartner.enhance_prompt (some r.hr) st inp,
             WorkplaceAdvisor.finalize_prompt (some r.career) st inp] := by
  unfold HRPartnerTeam.get_hr_advice HRSpecialist.analyze CareerPartner.enhance
    WorkplaceAdvisor.finalize at h
  dsimp only at h
  rcases hg0 : gen 0 (HRSpecialist.analyze_prompt st inp) with e | a <;>
    rw [hg0] at h <;> dsimp only at h
  · simp at h
  · rcases hg1 : gen 1 (CareerPartner.enhance_prompt (some a) st inp) with e | b <;>
      rw [hg1] at h <;> dsimp only at h
    · simp at h
    · rcases hg2 : gen 2 (WorkplaceAdvisor.finalize_prompt (some b) st inp) with e | c <;>
        rw [hg2] at h <;> dsimp only at h
      · simp at h
      · simp only [Prod.mk.injEq, Except.ok.injEq] at h
        obtain ⟨h1, h2, h3⟩ := h
        subst h3
        simp [← h2]

/-- C1 witness: a concrete request on which the theorem applies — with an
always-succeeding oracle, the trace is the three prompts in pipeline order. -/
theorem C1_witness :
    (HRPartnerTeam.get_hr_advice (fun _ _ => Except.ok "답변") "2025-01-01 00:00:00" []
        "고용/계약" []).2.1
      = [HRSpecialist.analyze_prompt "고용/계약" [],
         CareerPartner.enhance_prompt (some "답변") "고용/계약" [],
         WorkplaceAdvisor.finalize_prompt (some "답변") "고용/계약" []] :=
  C1_orchestrator_three_calls_in_order (fun _ _ => Except.ok "답변") "2025-01-01 00:00:00"
    [] "고용/계약" [] _ _ ⟨"답변", "답변", "답변"⟩ rfl

/-- C4: if the generation capability succeeds on the first stage but fails on
the second stage's call, get_hr_advice propagates the error: the outcome is
that error (so no result object and in particular no career or workplace
field exists), exactly two generation calls were issued (the third stage is
never invoked), and the workflow-log history is unchanged. -/
theorem C4_second_stage_failure_aborts (gen : GenOracle) (ts : String)
    (logs : List WorkflowLog) (st : String) (inp : InputRecord) (r1 : String) (e : GenError)
    (h1 : gen 0 (HRSpecialist.analyze_prompt st inp) = Except.ok r1)
    (h2 : gen 1 (CareerPartner.enhance_prompt (some r1) st inp) = Except.error e) :
    HRPartnerTeam.get_hr_advice gen ts logs st inp
      = (logs, [HRSpecialist.analyze_prompt st inp,
                CareerPartner.enhance_prompt (some r1) st inp], Except.error e) := by
  unfold HRPartnerTeam.get_hr_advice HRSpecialist.analyze CareerPartner.enhance
    WorkplaceAdvisor.finalize
  dsimp only
  rw [h1]
  dsimp only
  rw [h2]
  simp

/-- C4 witness: a concrete oracle that succeeds on call 0 and fails on call 1;
get_hr_advice returns the error, a two-call trace and unchanged logs. -/
theorem C4_witness :
    HRPartnerTeam.get_hr_advice
        (fun i _ => if i = 0 then Except.ok "정책 답변"
          else Except.error (GenError.generationFailure "할당량 초과")) "ts" [] "평가/성과" []
      = ([], [HRSpecialist.analyze_prompt "평가/성과" [],
              CareerPartner.enhance_prompt (some "정책 답변") "평가/성과" []],
         Except.error (GenError.generationFailure "할당량 초과")) :=
  C4_second_stage_failure_aborts
    (fun i _ => if i = 0 then Except.ok "정책 답변"
      else Except.error (GenError.generationFailure "할당량 초과"))
    "ts" [] "평가/성과" [] "정책 답변" (GenError.generationFailure "할당량 초과") rfl rfl

/-- C9: if any of the three stages fails, get_hr_advice appends nothing to the
workflow-log history — the returned history equals the one passed in, so the
run history never records a failed or partial run. -/
theorem C9_no_log_entry_on_failure (gen : GenOracle) (ts : String)
    (logs : List WorkflowLog) (st : String) (inp : InputRecord)
    (logs' : List WorkflowLog) (trace : List String) (e : GenError)
    (h : HRPartnerTeam.get_hr_advice gen ts logs st inp = (logs', trace, Except.error e)) :
    logs' = logs := by
  unfold HRPartnerTeam.get_hr_advice HRSpecialist.analyze CareerPartner.enhance
    WorkplaceAdvisor.finalize at h
  dsimp only at h
  rcases hg0 : gen 0 (HRSpecialist.analyze_prompt st inp) with e0 | a <;>
    rw [hg0] at h <;> dsimp only at h
  · simp only [Prod.mk.injEq] at h
    exact h.1.symm
  · rcases hg1 : gen 1 (CareerPartner.enhance_prompt (some a) st inp) with e1 | b <;>
      rw [hg1] at h <;> dsimp only at h
    · simp only [Prod.mk.injEq] at h
      exact h.1.symm
    · rcases hg2 : gen 2 (WorkplaceAdvisor.finalize_prompt (some b) st inp) with e2 | c <;>
        rw [hg2] at h <;> dsimp only at h
      · simp only [Prod.mk.injEq] at h
        exact h.1.symm
      · simp at h

/-- C9 witness: a concrete failing request starting from a non-empty history;
the history comes back unchanged. -/
theorem C9_witness :
    ([⟨"고용/계약", "ts0", [], []⟩] : List WorkflowLog) = [⟨"고용/계약", "ts0", [], []⟩] :=
  C9_no_log_entry_on_failure (fun _ _ => Except.error (GenError.generationFailure "오류"))
    "ts" [⟨"고용/계약", "ts0", [], []⟩] "급여/복리후생" [] _ _ _ rfl
